import Mathlib

/-
Shallow embedding of the stacking/orchestration layer of EchoTorch's
StackedESN module (src/echotorch/nn/StackedESN.py).

Tensors are modelled as nested lists of rationals tagged by their number
of dimensions; Python exceptions are modelled with the Except monad.
ESNCell and RRCell are external collaborators of the module: only their
constructor argument lists appear in the source file, so each is embedded
as a record of the arguments it is constructed with, plus the small
amount of internal state the module's public contract requires.
-/

namespace EchoTorch

/-- Model of a torch tensor: nested lists of rationals, tagged by rank. -/
inductive PyTensor where
  | t0 (v : ℚ)
  | t1 (d : List ℚ)
  | t2 (d : List (List ℚ))
  | t3 (d : List (List (List ℚ)))
deriving DecidableEq, Repr

/-- Number of dimensions of a tensor, as in torch's Tensor.ndim. -/
def PyTensor.ndim : PyTensor → Nat
  | .t0 _ => 0
  | .t1 _ => 1
  | .t2 _ => 2
  | .t3 _ => 3

/-- Python exceptions relevant to this module.  The source file itself can
only raise AttributeError (missing instance attribute) and IndexError
(list/tensor indexing); ConfigurationError is the error class named by the
specification's error taxonomy (section 7) and is defined here so that
statements about it can be expressed — no code path of the source
constructs it. -/
inductive PyError where
  | attributeError
  | indexError
  | configurationError
deriving DecidableEq, Repr

/-- Indexing a tensor along its leading dimension (Python t[n]): drops one
dimension, raises IndexError when out of range. -/
def PyTensor.index : PyTensor → Nat → Except PyError PyTensor
  | .t0 _, _ => .error .indexError
  | .t1 d, n =>
    match d.get? n with
    | some v => .ok (.t0 v)
    | none => .error .indexError
  | .t2 d, n =>
    match d.get? n with
    | some r => .ok (.t1 r)
    | none => .error .indexError
  | .t3 d, n =>
    match d.get? n with
    | some m => .ok (.t2 m)
    | none => .error .indexError

/-- A hyperparameter that is either a single scalar or a Python list with
one entry per layer (the source discriminates with `type(p) is list`). -/
inductive ScalarOrList (α : Type) where
  | scalar (v : α)
  | list (vs : List α)
deriving DecidableEq, Repr

/-- One reservoir layer, embedded as the record of arguments StackedESN
passes to the `ESNCell` constructor (source line 114-117), in positional
order, plus a hidden-state field.  The hidden state is modelled from the
spec: the collaborator contract (section 6) gives the cell a hidden state
and a reset method; its dynamics are external to this module. -/
structure ESNCell where
  input_dim : Nat
  hidden_dim : Nat
  spectral_radius : ℚ
  bias_scaling : ℚ
  input_scaling : ℚ
  w : Option PyTensor
  w_in : Option PyTensor
  w_bias : Option PyTensor
  w_fdb : Option PyTensor
  sparsity : Option ℚ
  input_set : List ℚ
  w_sparsity : Option ℚ
  nonlin_func : String
  feedbacks : Bool
  feedback_dim : Nat
  wfdb_sparsity : Option ℚ
  normalize_feedbacks : Bool
  hidden : PyTensor
deriving DecidableEq, Repr

/-- The trainable ridge-regression readout, embedded as the record of the
arguments StackedESN passes to the `RRCell` constructor (source line 121)
plus its internal training state.  The internal state is modelled from the
spec: the ReadoutUnit contract (sections 3, 4.4) has accumulated
regression statistics (created empty at construction, cleared by reset),
a weight matrix that is None until finalize, and a training-mode flag. -/
structure RRCell where
  input_dim : Nat
  output_dim : Nat
  ridge_param : ℚ
  feedbacks : Bool
  with_bias : Bool
  learning_algo : String
  xTx : List (List ℚ)
  xTy : List (List ℚ)
  w_out : Option PyTensor
  training : Bool
deriving DecidableEq, Repr

/-- Square-or-rectangular zero matrix used for empty accumulators. -/
def zeroMat (r c : Nat) : List (List ℚ) :=
  List.replicate r (List.replicate c 0)

/-- Modelled from the spec: RRCell construction (ReadoutUnit contract,
sections 3 and 4.4) — statistics start empty (zero), the weight matrix is
None until finalize succeeds, and the module starts in training mode.
The regression design matrix has one extra column when a bias is used. -/
def RRCell.create (input_dim output_dim : Nat) (ridge_param : ℚ)
    (feedbacks with_bias : Bool) (learning_algo : String) : RRCell :=
  let d := input_dim + (if with_bias then 1 else 0)
  { input_dim := input_dim
    output_dim := output_dim
    ridge_param := ridge_param
    feedbacks := feedbacks
    with_bias := with_bias
    learning_algo := learning_algo
    xTx := zeroMat d d
    xTy := zeroMat d output_dim
    w_out := none
    training := true }

/-- Modelled from the spec: RRCell.reset (section 4.4) clears the
accumulated statistics, discards any previously finalized weights and
returns to the TRAIN phase. -/
def RRCell.reset (r : RRCell) : RRCell :=
  let d := r.input_dim + (if r.with_bias then 1 else 0)
  { r with
    xTx := zeroMat d d
    xTy := zeroMat d r.output_dim
    w_out := none
    training := true }

/-- The arguments of StackedESN.__init__ (source lines 43-46), in
signature order.  `nonlin_func` is an opaque activation tag. -/
structure StackedESNArgs where
  input_dim : Nat
  hidden_dim : List Nat
  output_dim : Nat
  spectral_radius : ScalarOrList ℚ
  bias_scaling : ScalarOrList ℚ
  input_scaling : ScalarOrList ℚ
  w : Option PyTensor
  w_in : Option PyTensor
  w_bias : Option PyTensor
  w_fdb : Option PyTensor
  sparsity : Option ℚ
  input_set : List ℚ
  w_sparsity : Option ℚ
  nonlin_func : String
  learning_algo : String
  ridge_param : ℚ
  create_cell : Bool
  feedbacks : Bool
  with_bias : Bool
  wfdb_sparsity : Option ℚ
  normalize_feedbacks : Bool
deriving DecidableEq, Repr

/-- The StackedESN instance: the attributes assigned by __init__
(`n_layers`, `esn_layers`, `n_features`, `output`) plus the nn.Module
training flag (True at construction).  The trailing Option fields model
attributes that the rest of the class dereferences (`self.esn_cell`,
`self.feedbacks`, `self.w_out`) but that no code path ever assigns: they
are `none` on every constructed instance, and reading `none` is Python's
AttributeError. -/
structure StackedESN where
  n_layers : Nat
  esn_layers : List ESNCell
  n_features : Nat
  output : RRCell
  training : Bool
  esn_cell : Option ESNCell
  self_feedbacks : Option Bool
  self_w_out : Option PyTensor
deriving DecidableEq, Repr

/-- Python attribute read on an nn.Module: a never-assigned attribute
raises AttributeError. -/
def getAttr {α : Type} : Option α → Except PyError α
  | some v => .ok v
  | none => .error .attributeError

/-- Source line 77: `layer_input_dim = input_dim if n == 0 else
hidden_dim[n-1]`.  In the construction loop `n` ranges over
`range(len(hidden_dim))`, so the index `n-1` is always in range; the
default of `getD` is never consulted there. -/
def layer_input_dim (input_dim : Nat) (hidden_dim : List Nat) (n : Nat) : Nat :=
  if n = 0 then input_dim else hidden_dim.getD (n - 1) 0

/-- Source lines 81-83: the same resolution pattern is applied to each of
spectral_radius, bias_scaling and input_scaling —
`p[n] if type(p) is list else p`. -/
def resolve_scalar (p : ScalarOrList ℚ) (n : Nat) : Except PyError ℚ :=
  match p with
  | .scalar v => .ok v
  | .list vs =>
    match vs.get? n with
    | some v => .ok v
    | none => .error .indexError

/-- Source lines 86-92: `layer_w = w[n] if w is a Tensor with ndim == 3,
else w unchanged if a Tensor, else None`. -/
def resolve_w (w : Option PyTensor) (n : Nat) : Except PyError (Option PyTensor) :=
  match w with
  | some t =>
    if t.ndim = 3 then (t.index n).map some
    else .ok (some t)
  | none => .ok none

/-- Source lines 95-101: identical resolution for w_in (ndim == 3). -/
def resolve_w_in (w_in : Option PyTensor) (n : Nat) : Except PyError (Option PyTensor) :=
  match w_in with
  | some t =>
    if t.ndim = 3 then (t.index n).map some
    else .ok (some t)
  | none => .ok none

/-- Source lines 104-110: resolution for w_bias, where a stacked argument
is 2-dimensional (a matrix of per-layer bias vectors). -/
def resolve_w_bias (w_bias : Option PyTensor) (n : Nat) : Except PyError (Option PyTensor) :=
  match w_bias with
  | some t =>
    if t.ndim = 2 then (t.index n).map some
    else .ok (some t)
  | none => .ok none

/-- One iteration of the construction loop (source lines 75-118): resolve
the per-layer parameters for layer `n` and build the ESNCell with the
exact positional arguments of source lines 114-117 — note the literal
`None` in the feedback-weight position and `output_dim` as the feedback
width.  The cell's initial hidden state is modelled from the spec as a
zero vector of its hidden width. -/
def buildLayer (a : StackedESNArgs) (n : Nat) : Except PyError ESNCell := do
  let sr ← resolve_scalar a.spectral_radius n
  let bs ← resolve_scalar a.bias_scaling n
  let isc ← resolve_scalar a.input_scaling n
  let lw ← resolve_w a.w n
  let lwin ← resolve_w_in a.w_in n
  let lwbias ← resolve_w_bias a.w_bias n
  .ok { input_dim := layer_input_dim a.input_dim a.hidden_dim n
        hidden_dim := a.hidden_dim.getD n 0
        spectral_radius := sr
        bias_scaling := bs
        input_scaling := isc
        w := lw
        w_in := lwin
        w_bias := lwbias
        w_fdb := none
        sparsity := a.sparsity
        input_set := a.input_set
        w_sparsity := a.w_sparsity
        nonlin_func := a.nonlin_func
        feedbacks := a.feedbacks
        feedback_dim := a.output_dim
        wfdb_sparsity := a.wfdb_sparsity
        normalize_feedbacks := a.normalize_feedbacks
        hidden := .t1 (List.replicate (a.hidden_dim.getD n 0) 0) }

/-- Runs the construction loop over the given layer indices, stopping at
the first raised exception, collecting the cells in order. -/
def buildLayers (a : StackedESNArgs) : List Nat → Except PyError (List ESNCell)
  | [] => .ok []
  | n :: rest => do
    let c ← buildLayer a n
    let cs ← buildLayers a rest
    .ok (c :: cs)

/-- The accumulated `self.n_features` (source lines 72, 78): the sum over
the loop of each layer's input width. -/
def n_features_of (input_dim : Nat) (hidden_dim : List Nat) : Nat :=
  ((List.range hidden_dim.length).map (layer_input_dim input_dim hidden_dim)).sum

/-- StackedESN.__init__ (source lines 43-122): `n_layers = len(hidden_dim)`;
the loop builds one ESNCell per index with resolved per-layer parameters
and accumulates `n_features`; the readout is
`RRCell(n_features, output_dim, ridge_param, feedbacks, with_bias,
learning_algo)`.  `w_fdb` and `create_cell` are accepted but never read.
The three trailing fields model the attributes no code path assigns. -/
def StackedESN.init (a : StackedESNArgs) : Except PyError StackedESN := do
  let cells ← buildLayers a (List.range a.hidden_dim.length)
  .ok { n_layers := a.hidden_dim.length
        esn_layers := cells
        n_features := n_features_of a.input_dim a.hidden_dim
        output := RRCell.create (n_features_of a.input_dim a.hidden_dim)
          a.output_dim a.ridge_param a.feedbacks a.with_bias a.learning_algo
        training := true
        esn_cell := none
        self_feedbacks := none
        self_w_out := none }

/-- Modelled from the spec: the hidden-state sequence an ESNCell produces
from a driving sequence (section 6 collaborator contract).  Its concrete
dynamics are outside this module (spec section 1) and unreachable from
StackedESN.forward, which fails before calling any cell. -/
def ESNCell.run (_c : ESNCell) (_u : PyTensor) (_y : Option PyTensor)
    (_w_out : Option PyTensor) : PyTensor :=
  .t2 []

/-- Modelled from the spec: applying the readout to a hidden-state
sequence (section 4.4); unreachable from StackedESN.forward. -/
def RRCell.run (_r : RRCell) (_hidden_states : PyTensor) : PyTensor :=
  .t2 []

/-- StackedESN.forward (source lines 195-213).  Python first evaluates
`self.feedbacks`, an attribute never assigned anywhere in the class, so
every call raises AttributeError there; the embedded branches mirror the
source: teacher forcing in training mode, `w_out` feedback in eval mode,
plain drive otherwise, each through `self.esn_cell` (also never
assigned), then the readout. -/
def StackedESN.forward (s : StackedESN) (u : PyTensor) (y : Option PyTensor) :
    Except PyError PyTensor := do
  let feedbacks ← getAttr s.self_feedbacks
  if feedbacks && s.training then
    let cell ← getAttr s.esn_cell
    .ok (s.output.run (cell.run u y none))
  else if feedbacks then
    let cell ← getAttr s.esn_cell
    let wout ← getAttr s.self_w_out
    .ok (s.output.run (cell.run u none (some wout)))
  else
    let cell ← getAttr s.esn_cell
    .ok (s.output.run (cell.run u none none))

/-- StackedESN.reset (source lines 162-173): `self.output.reset()` then
`self.train(True)`.  nn.Module.train(True) sets the training flag on the
stack and on its registered child module `output` (the ESNCells live in a
plain Python list and are not registered children). -/
def StackedESN.reset (s : StackedESN) : StackedESN :=
  let out := s.output.reset
  { s with output := { out with training := true }, training := true }

/-- StackedESN.get_w_out (source lines 176-182). -/
def StackedESN.get_w_out (s : StackedESN) : Option PyTensor :=
  s.output.w_out

/-- Property StackedESN.hidden (source lines 129-136):
`return self.esn_cell.hidden`. -/
def StackedESN.hiddenProp (s : StackedESN) : Except PyError PyTensor :=
  (getAttr s.esn_cell).map ESNCell.hidden

/-- Property StackedESN.w (source lines 139-146): `return self.esn_cell.w`. -/
def StackedESN.wProp (s : StackedESN) : Except PyError (Option PyTensor) :=
  (getAttr s.esn_cell).map ESNCell.w

/-- Property StackedESN.w_in (source lines 149-156):
`return self.esn_cell.w_in`. -/
def StackedESN.wInProp (s : StackedESN) : Except PyError (Option PyTensor) :=
  (getAttr s.esn_cell).map ESNCell.w_in

/-- StackedESN.set_w (source lines 185-192): `self.esn_cell.w = w` — the
load of `self.esn_cell` happens before the store on its result. -/
def StackedESN.set_w (s : StackedESN) (w : PyTensor) : Except PyError StackedESN :=
  (getAttr s.esn_cell).map
    (fun c => { s with esn_cell := some { c with w := some w } })

/-- StackedESN.reset_hidden (source lines 228-234):
`self.esn_cell.reset_hidden()`; the cell-side reset is modelled from the
spec (section 6, reset_hidden_state) as zeroing the hidden state. -/
def StackedESN.reset_hidden (s : StackedESN) : Except PyError StackedESN :=
  (getAttr s.esn_cell).map
    (fun c =>
      { s with esn_cell := some { c with hidden := .t1 (List.replicate c.hidden_dim 0) } })

/-- StackedESN.get_spectral_radius (source lines 237-243):
`return self.esn_cell.get_spectral_raduis()`. -/
def StackedESN.get_spectral_radius (s : StackedESN) : Except PyError ℚ :=
  (getAttr s.esn_cell).map ESNCell.spectral_radius

/-
Concrete configurations used to exercise the theorems below.
-/

/-- A minimal single-layer configuration with the constructor's default
hyperparameters (signature line 43-46). -/
def baseArgs : StackedESNArgs :=
  { input_dim := 1
    hidden_dim := [1]
    output_dim := 1
    spectral_radius := .scalar (9/10)
    bias_scaling := .scalar 0
    input_scaling := .scalar 1
    w := none
    w_in := none
    w_bias := none
    w_fdb := none
    sparsity := none
    input_set := [1, -1]
    w_sparsity := none
    nonlin_func := "tanh"
    learning_algo := "inv"
    ridge_param := 0
    create_cell := true
    feedbacks := false
    with_bias := true
    wfdb_sparsity := none
    normalize_feedbacks := false }

/-- A two-layer configuration: input width 1, hidden widths 2 and 3. -/
def exampleArgs : StackedESNArgs :=
  { baseArgs with hidden_dim := [2, 3] }

/-- The first cell `exampleArgs` constructs. -/
def exampleCell0 : ESNCell :=
  { input_dim := 1
    hidden_dim := 2
    spectral_radius := 9/10
    bias_scaling := 0
    input_scaling := 1
    w := none
    w_in := none
    w_bias := none
    w_fdb := none
    sparsity := none
    input_set := [1, -1]
    w_sparsity := none
    nonlin_func := "tanh"
    feedbacks := false
    feedback_dim := 1
    wfdb_sparsity := none
    normalize_feedbacks := false
    hidden := .t1 [0, 0] }

/-- The second cell `exampleArgs` constructs: its input width is the
first cell's hidden width. -/
def exampleCell1 : ESNCell :=
  { exampleCell0 with input_dim := 2, hidden_dim := 3, hidden := .t1 [0, 0, 0] }

/-- The stack `exampleArgs` constructs. -/
def exampleStack : StackedESN :=
  { n_layers := 2
    esn_layers := [exampleCell0, exampleCell1]
    n_features := 3
    output := RRCell.create 3 1 0 false true "inv"
    training := true
    esn_cell := none
    self_feedbacks := none
    self_w_out := none }

/-- The specification's own validation example: two layers but a
three-entry spectral-radius list. -/
def c4args : StackedESNArgs :=
  { baseArgs with hidden_dim := [10, 20], spectral_radius := .list [9/10, 8/10, 7/10] }

/-- A configuration with an empty hidden-dimension list. -/
def c4emptyArgs : StackedESNArgs :=
  { baseArgs with hidden_dim := ([] : List Nat) }

/-- Two layers but a one-entry spectral-radius list. -/
def c4shortArgs : StackedESNArgs :=
  { baseArgs with hidden_dim := [1, 1], spectral_radius := .list [1/2] }

/-- One layer but a two-entry spectral-radius list. -/
def c4truncArgs : StackedESNArgs :=
  { baseArgs with hidden_dim := [1], spectral_radius := .list [3/5, 7/10] }

/-- The single cell `c4truncArgs` constructs: it takes the first list
entry; the second is ignored. -/
def c4truncCell : ESNCell :=
  { exampleCell0 with
    input_dim := 1
    hidden_dim := 1
    spectral_radius := 3/5
    hidden := .t1 [0] }

/-- The stack `c4truncArgs` constructs. -/
def c4truncStack : StackedESN :=
  { n_layers := 1
    esn_layers := [c4truncCell]
    n_features := 1
    output := RRCell.create 1 1 0 false true "inv"
    training := true
    esn_cell := none
    self_feedbacks := none
    self_w_out := none }

/-
Helper lemmas about the embedding.
-/

theorem ok_bind {ε α β : Type} (a : α) (f : α → Except ε β) :
    (Except.ok a >>= f : Except ε β) = f a := rfl

theorem error_bind {ε α β : Type} (e : ε) (f : α → Except ε β) :
    (Except.error e >>= f : Except ε β) = .error e := rfl

theorem index_error {t : PyTensor} {n : Nat} {e : PyError}
    (h : t.index n = .error e) : e = .indexError := by
  cases t <;> simp only [PyTensor.index] at h
  case t0 => exact (Except.error.inj h).symm
  case t1 d =>
    cases hg : d.get? n <;> rw [hg] at h
    · exact (Except.error.inj h).symm
    · cases h
  case t2 d =>
    cases hg : d.get? n <;> rw [hg] at h
    · exact (Except.error.inj h).symm
    · cases h
  case t3 d =>
    cases hg : d.get? n <;> rw [hg] at h
    · exact (Except.error.inj h).symm
    · cases h

theorem resolve_scalar_error {p : ScalarOrList ℚ} {n : Nat} {e : PyError}
    (h : resolve_scalar p n = .error e) : e = .indexError := by
  cases p <;> simp only [resolve_scalar] at h
  case scalar => cases h
  case list vs =>
    cases hg : vs.get? n <;> rw [hg] at h
    · exact (Except.error.inj h).symm
    · cases h

theorem resolve_w_error {w : Option PyTensor} {n : Nat} {e : PyError}
    (h : resolve_w w n = .error e) : e = .indexError := by
  cases w <;> simp only [resolve_w] at h
  case none => cases h
  case some t =>
    by_cases hd : t.ndim = 3
    · rw [if_pos hd] at h
      cases hi : t.index n <;> rw [hi] at h <;> simp only [Except.map] at h
      · exact (Except.error.inj h) ▸ index_error hi
      · cases h
    · rw [if_neg hd] at h; cases h

theorem resolve_w_in_error {w : Option PyTensor} {n : Nat} {e : PyError}
    (h : resolve_w_in w n = .error e) : e = .indexError := by
  cases w <;> simp only [resolve_w_in] at h
  case none => cases h
  case some t =>
    by_cases hd : t.ndim = 3
    · rw [if_pos hd] at h
      cases hi : t.index n <;> rw [hi] at h <;> simp only [Except.map] at h
      · exact (Except.error.inj h) ▸ index_error hi
      · cases h
    · rw [if_neg hd] at h; cases h

theorem resolve_w_bias_error {w : Option PyTensor} {n : Nat} {e : PyError}
    (h : resolve_w_bias w n = .error e) : e = .indexError := by
  cases w <;> simp only [resolve_w_bias] at h
  case none => cases h
  case some t =>
    by_cases hd : t.ndim = 2
    · rw [if_pos hd] at h
      cases hi : t.index n <;> rw [hi] at h <;> simp only [Except.map] at h
      · exact (Except.error.inj h) ▸ index_error hi
      · cases h
    · rw [if_neg hd] at h; cases h

theorem buildLayer_ok_elim {a : StackedESNArgs} {n : Nat} {c : ESNCell}
    (h : buildLayer a n = .ok c) :
    c.input_dim = layer_input_dim a.input_dim a.hidden_dim n ∧
    c.hidden_dim = a.hidden_dim.getD n 0 ∧
    resolve_scalar a.spectral_radius n = .ok c.spectral_radius ∧
    resolve_scalar a.bias_scaling n = .ok c.bias_scaling ∧
    resolve_scalar a.input_scaling n = .ok c.input_scaling ∧
    resolve_w a.w n = .ok c.w ∧
    resolve_w_in a.w_in n = .ok c.w_in ∧
    resolve_w_bias a.w_bias n = .ok c.w_bias ∧
    c.w_fdb = none ∧ c.feedback_dim = a.output_dim := by
  unfold buildLayer at h
  cases h1 : resolve_scalar a.spectral_radius n <;> rw [h1] at h <;>
    simp only [ok_bind, error_bind] at h
  case error => cases h
  case ok sr =>
  cases h2 : resolve_scalar a.bias_scaling n <;> rw [h2] at h <;>
    simp only [ok_bind, error_bind] at h
  case error => cases h
  case ok bs =>
  cases h3 : resolve_scalar a.input_scaling n <;> rw [h3] at h <;>
    simp only [ok_bind, error_bind] at h
  case error => cases h
  case ok isc =>
  cases h4 : resolve_w a.w n <;> rw [h4] at h <;>
    simp only [ok_bind, error_bind] at h
  case error => cases h
  case ok lw =>
  cases h5 : resolve_w_in a.w_in n <;> rw [h5] at h <;>
    simp only [ok_bind, error_bind] at h
  case error => cases h
  case ok lwin =>
  cases h6 : resolve_w_bias a.w_bias n <;> rw [h6] at h <;>
    simp only [ok_bind, error_bind] at h
  case error => cases h
  case ok lwbias =>
  cases h
  exact ⟨rfl, rfl, rfl, rfl, rfl, rfl, rfl, rfl, rfl, rfl⟩

theorem buildLayer_error {a : StackedESNArgs} {n : Nat} {e : PyError}
    (h : buildLayer a n = .error e) : e = .indexError := by
  unfold buildLayer at h
  cases h1 : resolve_scalar a.spectral_radius n <;> rw [h1] at h <;>
    simp only [ok_bind, error_bind] at h
  case error => exact (Except.error.inj h) ▸ resolve_scalar_error h1
  case ok sr =>
  cases h2 : resolve_scalar a.bias_scaling n <;> rw [h2] at h <;>
    simp only [ok_bind, error_bind] at h
  case error => exact (Except.error.inj h) ▸ resolve_scalar_error h2
  case ok bs =>
  cases h3 : resolve_scalar a.input_scaling n <;> rw [h3] at h <;>
    simp only [ok_bind, error_bind] at h
  case error => exact (Except.error.inj h) ▸ resolve_scalar_error h3
  case ok isc =>
  cases h4 : resolve_w a.w n <;> rw [h4] at h <;>
    simp only [ok_bind, error_bind] at h
  case error => exact (Except.error.inj h) ▸ resolve_w_error h4
  case ok lw =>
  cases h5 : resolve_w_in a.w_in n <;> rw [h5] at h <;>
    simp only [ok_bind, error_bind] at h
  case error => exact (Except.error.inj h) ▸ resolve_w_in_error h5
  case ok lwin =>
  cases h6 : resolve_w_bias a.w_bias n <;> rw [h6] at h <;>
    simp only [ok_bind, error_bind] at h
  case error => exact (Except.error.inj h) ▸ resolve_w_bias_error h6
  case ok lwbias => cases h

theorem buildLayers_length {a : StackedESNArgs} :
    ∀ {l : List Nat} {cs : List ESNCell},
      buildLayers a l = .ok cs → cs.length = l.length := by
  intro l
  induction l with
  | nil => intro cs h; cases h; rfl
  | cons n rest ih =>
    intro cs h
    unfold buildLayers at h
    cases h1 : buildLayer a n <;> rw [h1] at h <;>
      simp only [ok_bind, error_bind] at h
    · cases h
    · cases h2 : buildLayers a rest <;> rw [h2] at h <;>
        simp only [ok_bind, error_bind] at h
      · cases h
      · cases h; simp [ih h2]

theorem buildLayers_get {a : StackedESNArgs} :
    ∀ {l : List Nat} {cs : List ESNCell} {k n : Nat} {c : ESNCell},
      buildLayers a l = .ok cs → l.get? k = some n → cs.get? k = some c →
      buildLayer a n = .ok c := by
  intro l
  induction l with
  | nil => intro cs k n c _ hk; cases hk
  | cons m rest ih =>
    intro cs k n c h hk hc
    unfold buildLayers at h
    cases h1 : buildLayer a m <;> rw [h1] at h <;>
      simp only [ok_bind, error_bind] at h
    · cases h
    · cases h2 : buildLayers a rest <;> rw [h2] at h <;>
        simp only [ok_bind, error_bind] at h
      · cases h
      · cases h
        cases k with
        | zero =>
          cases hk; cases hc; exact h1
        | succ k =>
          exact ih h2 hk hc

theorem buildLayers_mem {a : StackedESNArgs} :
    ∀ {l : List Nat} {cs : List ESNCell} {n : Nat},
      buildLayers a l = .ok cs → n ∈ l → ∃ c, buildLayer a n = .ok c := by
  intro l
  induction l with
  | nil => intro cs n _ hm; cases hm
  | cons m rest ih =>
    intro cs n h hm
    unfold buildLayers at h
    cases h1 : buildLayer a m <;> rw [h1] at h <;>
      simp only [ok_bind, error_bind] at h
    · cases h
    · cases h2 : buildLayers a rest <;> rw [h2] at h <;>
        simp only [ok_bind, error_bind] at h
      · cases h
      · cases List.mem_cons.mp hm with
        | inl heq => exact ⟨_, heq ▸ h1⟩
        | inr hmem => exact ih h2 hmem

theorem buildLayers_error {a : StackedESNArgs} :
    ∀ {l : List Nat} {e : PyError},
      buildLayers a l = .error e → e = .indexError := by
  intro l
  induction l with
  | nil => intro e h; cases h
  | cons m rest ih =>
    intro e h
    unfold buildLayers at h
    cases h1 : buildLayer a m <;> rw [h1] at h <;>
      simp only [ok_bind, error_bind] at h
    · exact (Except.error.inj h) ▸ buildLayer_error h1
    · cases h2 : buildLayers a rest <;> rw [h2] at h <;>
        simp only [ok_bind, error_bind] at h
      · exact (Except.error.inj h) ▸ ih h2
      · cases h

theorem buildLayers_congr {a b : StackedESNArgs}
    (hb : ∀ n, buildLayer a n = buildLayer b n) :
    ∀ l : List Nat, buildLayers a l = buildLayers b l := by
  intro l
  induction l with
  | nil => rfl
  | cons n rest ih =>
    unfold buildLayers
    rw [hb n, ih]

theorem sum_range_getD (hd : List Nat) :
    ∀ m, m ≤ hd.length →
      ((List.range m).map (fun k => hd.getD k 0)).sum = (hd.take m).sum := by
  intro m
  induction m with
  | zero => intro _; simp
  | succ m ih =>
    intro hle
    have hm : m < hd.length := hle
    rw [List.range_succ, List.map_append, List.sum_append, ih (Nat.le_of_lt hm)]
    cases hg : hd.get? m with
    | none => exact absurd (List.get?_eq_none.mp hg) (Nat.not_le.mpr hm)
    | some v =>
      have hg2 : hd[m]? = some v := by rw [← List.get?_eq_getElem?]; exact hg
      rw [List.take_succ, List.sum_append, hg2]
      simp [hg2]

theorem n_features_closed (d : Nat) (hd : List Nat) (h : hd ≠ []) :
    n_features_of d hd = d + (hd.take (hd.length - 1)).sum := by
  obtain ⟨L, hL⟩ : ∃ L, hd.length = L + 1 :=
    ⟨hd.length - 1, (Nat.succ_pred_eq_of_pos (List.length_pos.mpr h)).symm⟩
  unfold n_features_of
  rw [hL, List.range_succ_eq_map, List.map_cons, List.sum_cons, List.map_map]
  have h0 : layer_input_dim d hd 0 = d := by simp [layer_input_dim]
  have hsucc : (layer_input_dim d hd ∘ Nat.succ) = fun k => hd.getD k 0 := by
    funext k
    simp [layer_input_dim, Function.comp, Nat.succ_ne_zero]
  rw [h0, hsucc, sum_range_getD hd L (by rw [hL]; exact Nat.le_succ L)]
  simp

theorem init_ok_elim {a : StackedESNArgs} {s : StackedESN}
    (h : StackedESN.init a = .ok s) :
    buildLayers a (List.range a.hidden_dim.length) = .ok s.esn_layers ∧
    s.n_layers = a.hidden_dim.length ∧
    s.n_features = n_features_of a.input_dim a.hidden_dim ∧
    s.output = RRCell.create (n_features_of a.input_dim a.hidden_dim) a.output_dim
      a.ridge_param a.feedbacks a.with_bias a.learning_algo ∧
    s.training = true ∧ s.esn_cell = none ∧
    s.self_feedbacks = none ∧ s.self_w_out = none := by
  unfold StackedESN.init at h
  cases hb : buildLayers a (List.range a.hidden_dim.length) <;> rw [hb] at h <;>
    simp only [ok_bind, error_bind] at h
  · cases h
  · cases h; exact ⟨rfl, rfl, rfl, rfl, rfl, rfl, rfl, rfl⟩

theorem init_error {a : StackedESNArgs} {e : PyError}
    (h : StackedESN.init a = .error e) : e = .indexError := by
  unfold StackedESN.init at h
  cases hb : buildLayers a (List.range a.hidden_dim.length) <;> rw [hb] at h <;>
    simp only [ok_bind, error_bind] at h
  · exact (Except.error.inj h) ▸ buildLayers_error hb
  · cases h

/-
Claim theorems.
-/

/-- C1: the claim says forward(u, y) routes the input (with the target
sequence in training mode, the trained readout in eval mode, or alone)
to every layer and concatenates the layers' hidden states for the
readout.  The code instead dereferences `self.feedbacks` (and then
`self.esn_cell`), attributes no code path ever assigns, so every forward
call on a constructed stack raises AttributeError — the per-layer
routing and concatenation described by the claim are never executed. -/
theorem C1_forward_always_attribute_error (a : StackedESNArgs) (s : StackedESN)
    (u : PyTensor) (y : Option PyTensor) (h : StackedESN.init a = .ok s) :
    s.forward u y = .error .attributeError := by
  obtain ⟨-, -, -, -, -, -, hf, -⟩ := init_ok_elim h
  unfold StackedESN.forward
  rw [hf]
  rfl

/-- Witness for C1: a concrete constructed stack raises AttributeError
on a concrete forward call. -/
theorem C1_forward_always_attribute_error_witness :
    StackedESN.forward exampleStack (.t1 [1]) (some (.t1 [1])) =
      .error .attributeError :=
  C1_forward_always_attribute_error exampleArgs exampleStack
    (.t1 [1]) (some (.t1 [1])) (by rfl)

/-- C2: for every successful construction with a nonempty hidden_dim,
`n_features` equals the sum of the per-layer input widths — input_dim
plus all hidden widths except the last — and the readout is constructed
with exactly this input width. -/
theorem C2_feature_width_accounting (a : StackedESNArgs) (s : StackedESN)
    (h1 : StackedESN.init a = .ok s) (h2 : a.hidden_dim ≠ []) :
    s.n_features = a.input_dim + (a.hidden_dim.take (a.hidden_dim.length - 1)).sum ∧
    s.output.input_dim = s.n_features := by
  obtain ⟨-, -, hnf, hout, -, -, -, -⟩ := init_ok_elim h1
  constructor
  · rw [hnf]
    exact n_features_closed a.input_dim a.hidden_dim h2
  · rw [hout, hnf]
    rfl

/-- Witness for C2: with input width 1 and hidden widths [2, 3] the
readout input width is 1 + 2 = 3, not 2 + 3. -/
theorem C2_feature_width_accounting_witness :
    exampleStack.n_features =
      exampleArgs.input_dim +
        (exampleArgs.hidden_dim.take (exampleArgs.hidden_dim.length - 1)).sum ∧
    exampleStack.output.input_dim = exampleStack.n_features :=
  C2_feature_width_accounting exampleArgs exampleStack (by rfl) (by decide)

/-- C3: a successful construction yields exactly len(hidden_dim) cells;
cell 0 has input width input_dim, and every later cell's input width is
the previous entry of hidden_dim, which is the previous cell's hidden
width. -/
theorem C3_strict_layer_chaining (a : StackedESNArgs) (s : StackedESN)
    (h : StackedESN.init a = .ok s) :
    s.esn_layers.length = a.hidden_dim.length ∧
    (∀ c, s.esn_layers.get? 0 = some c → c.input_dim = a.input_dim) ∧
    (∀ i ci cp, s.esn_layers.get? (i + 1) = some ci →
      s.esn_layers.get? i = some cp →
      ci.input_dim = a.hidden_dim.getD i 0 ∧ ci.input_dim = cp.hidden_dim) := by
  obtain ⟨hb, -, -, -, -, -, -, -⟩ := init_ok_elim h
  have hlen : s.esn_layers.length = a.hidden_dim.length := by
    rw [buildLayers_length hb, List.length_range]
  refine ⟨hlen, ?_, ?_⟩
  · intro c hc
    have hk : 0 < a.hidden_dim.length := by
      rw [← hlen]
      exact (List.get?_eq_some.mp hc).1
    have hr : (List.range a.hidden_dim.length).get? 0 = some 0 := List.get?_range hk
    have := buildLayer_ok_elim (buildLayers_get hb hr hc)
    rw [this.1]
    simp [layer_input_dim]
  · intro i ci cp hci hcp
    have hki : i + 1 < a.hidden_dim.length := by
      rw [← hlen]
      exact (List.get?_eq_some.mp hci).1
    have hri : (List.range a.hidden_dim.length).get? (i + 1) = some (i + 1) :=
      List.get?_range hki
    have hrp : (List.range a.hidden_dim.length).get? i = some i :=
      List.get?_range (Nat.lt_of_succ_lt hki)
    have hei := buildLayer_ok_elim (buildLayers_get hb hri hci)
    have hep := buildLayer_ok_elim (buildLayers_get hb hrp hcp)
    have h1 : ci.input_dim = a.hidden_dim.getD i 0 := by
      rw [hei.1]
      simp [layer_input_dim]
    exact ⟨h1, by rw [h1, hep.2.1]⟩

/-- Witness for C3: the two-layer example stack — two cells, first input
width 1, second input width 2 = first cell's hidden width. -/
theorem C3_strict_layer_chaining_witness :
    exampleStack.esn_layers.length = exampleArgs.hidden_dim.length ∧
    exampleCell0.input_dim = exampleArgs.input_dim ∧
    exampleCell1.input_dim = exampleArgs.hidden_dim.getD 0 0 ∧
    exampleCell1.input_dim = exampleCell0.hidden_dim := by
  have h := C3_strict_layer_chaining exampleArgs exampleStack (by rfl)
  exact ⟨h.1, h.2.1 exampleCell0 (by rfl),
    (h.2.2 0 exampleCell1 exampleCell0 (by rfl) (by rfl)).1,
    (h.2.2 0 exampleCell1 exampleCell0 (by rfl) (by rfl)).2⟩

/-- C5: matrix-parameter resolution — a stacked tensor (3-D for w and
w_in, 2-D for w_bias) is sliced at the layer index; a single (one fewer
dimension) matrix is passed unchanged to every layer; None passes None —
and each constructed layer receives exactly the resolved value. -/
theorem C5_matrix_parameter_resolution :
    (∀ (d3 : List (List (List ℚ))) (n : Nat) (m : List (List ℚ)),
      d3.get? n = some m → resolve_w (some (.t3 d3)) n = .ok (some (.t2 m))) ∧
    (∀ (m : List (List ℚ)) (n : Nat),
      resolve_w (some (.t2 m)) n = .ok (some (.t2 m))) ∧
    (∀ n : Nat, resolve_w none n = .ok none) ∧
    (∀ (d3 : List (List (List ℚ))) (n : Nat) (m : List (List ℚ)),
      d3.get? n = some m → resolve_w_in (some (.t3 d3)) n = .ok (some (.t2 m))) ∧
    (∀ (m : List (List ℚ)) (n : Nat),
      resolve_w_in (some (.t2 m)) n = .ok (some (.t2 m))) ∧
    (∀ n : Nat, resolve_w_in none n = .ok none) ∧
    (∀ (rows : List (List ℚ)) (n : Nat) (v : List ℚ),
      rows.get? n = some v → resolve_w_bias (some (.t2 rows)) n = .ok (some (.t1 v))) ∧
    (∀ (v : List ℚ) (n : Nat),
      resolve_w_bias (some (.t1 v)) n = .ok (some (.t1 v))) ∧
    (∀ n : Nat, resolve_w_bias none n = .ok none) ∧
    (∀ (a : StackedESNArgs) (n : Nat) (c : ESNCell), buildLayer a n = .ok c →
      resolve_w a.w n = .ok c.w ∧ resolve_w_in a.w_in n = .ok c.w_in ∧
      resolve_w_bias a.w_bias n = .ok c.w_bias) := by
  refine ⟨?_, ?_, ?_, ?_, ?_, ?_, ?_, ?_, ?_, ?_⟩
  · intro d3 n m hg
    rw [List.get?_eq_getElem?] at hg
    simp [resolve_w, PyTensor.ndim, PyTensor.index, hg, Except.map]
  · intro m n
    simp [resolve_w, PyTensor.ndim]
  · intro n
    rfl
  · intro d3 n m hg
    rw [List.get?_eq_getElem?] at hg
    simp [resolve_w_in, PyTensor.ndim, PyTensor.index, hg, Except.map]
  · intro m n
    simp [resolve_w_in, PyTensor.ndim]
  · intro n
    rfl
  · intro rows n v hg
    rw [List.get?_eq_getElem?] at hg
    simp [resolve_w_bias, PyTensor.ndim, PyTensor.index, hg, Except.map]
  · intro v n
    simp [resolve_w_bias, PyTensor.ndim]
  · intro n
    rfl
  · intro a n c h
    have he := buildLayer_ok_elim h
    exact ⟨he.2.2.2.2.2.1, he.2.2.2.2.2.2.1, he.2.2.2.2.2.2.2.1⟩

/-- Witness for C5: concrete stacked, single and None resolutions, and a
concrete constructed layer receiving the resolved (None) values. -/
theorem C5_matrix_parameter_resolution_witness :
    resolve_w (some (.t3 [[[1]], [[2]]])) 1 = .ok (some (.t2 [[2]])) ∧
    resolve_w (some (.t2 [[3]])) 1 = .ok (some (.t2 [[3]])) ∧
    resolve_w_in (some (.t3 [[[4]]])) 0 = .ok (some (.t2 [[4]])) ∧
    resolve_w_bias (some (.t2 [[5], [6]])) 1 = .ok (some (.t1 [6])) ∧
    resolve_w_bias (some (.t1 [7])) 1 = .ok (some (.t1 [7])) ∧
    (resolve_w exampleArgs.w 0 = .ok exampleCell0.w ∧
      resolve_w_in exampleArgs.w_in 0 = .ok exampleCell0.w_in ∧
      resolve_w_bias exampleArgs.w_bias 0 = .ok exampleCell0.w_bias) := by
  have h := C5_matrix_parameter_resolution
  exact ⟨h.1 [[[1]], [[2]]] 1 [[2]] rfl,
    h.2.1 [[3]] 1,
    h.2.2.2.1 [[[4]]] 0 [[4]] rfl,
    h.2.2.2.2.2.2.1 [[5], [6]] 1 [6] rfl,
    h.2.2.2.2.2.2.2.1 [7] 1,
    h.2.2.2.2.2.2.2.2.2 exampleArgs 0 exampleCell0 (by rfl)⟩

/-- C6: scalar-parameter resolution — a per-layer list [a, b, c] with
three layers resolves to a, b, c at indices 0, 1, 2; a single scalar
resolves to itself at every index; and each constructed layer's
spectral radius, bias scaling and input scaling are the resolved
values (lines 81-83 apply the identical pattern to all three). -/
theorem C6_scalar_parameter_resolution :
    (∀ x y z : ℚ,
      resolve_scalar (.list [x, y, z]) 0 = .ok x ∧
      resolve_scalar (.list [x, y, z]) 1 = .ok y ∧
      resolve_scalar (.list [x, y, z]) 2 = .ok z) ∧
    (∀ (v : ℚ) (n : Nat), resolve_scalar (.scalar v) n = .ok v) ∧
    (∀ (a : StackedESNArgs) (n : Nat) (c : ESNCell), buildLayer a n = .ok c →
      resolve_scalar a.spectral_radius n = .ok c.spectral_radius ∧
      resolve_scalar a.bias_scaling n = .ok c.bias_scaling ∧
      resolve_scalar a.input_scaling n = .ok c.input_scaling) := by
  refine ⟨?_, ?_, ?_⟩
  · intro x y z
    exact ⟨rfl, rfl, rfl⟩
  · intro v n
    rfl
  · intro a n c h
    have he := buildLayer_ok_elim h
    exact ⟨he.2.2.1, he.2.2.2.1, he.2.2.2.2.1⟩

/-- Witness for C6: concrete list and scalar resolutions, and a concrete
constructed layer receiving the first entry of its two-entry list. -/
theorem C6_scalar_parameter_resolution_witness :
    (resolve_scalar (.list [(1 : ℚ)/2, 1/3, 1/4]) 0 = .ok (1/2) ∧
      resolve_scalar (.list [(1 : ℚ)/2, 1/3, 1/4]) 1 = .ok (1/3) ∧
      resolve_scalar (.list [(1 : ℚ)/2, 1/3, 1/4]) 2 = .ok (1/4)) ∧
    resolve_scalar (.scalar (5 : ℚ)) 7 = .ok 5 ∧
    (resolve_scalar c4truncArgs.spectral_radius 0 = .ok c4truncCell.spectral_radius ∧
      resolve_scalar c4truncArgs.bias_scaling 0 = .ok c4truncCell.bias_scaling ∧
      resolve_scalar c4truncArgs.input_scaling 0 = .ok c4truncCell.input_scaling) := by
  have h := C6_scalar_parameter_resolution
  exact ⟨h.1 (1/2) (1/3) (1/4), h.2.1 5 7,
    h.2.2 c4truncArgs 0 c4truncCell (by rfl)⟩

/-- C7: reset() frame property — for every stack state, reset discards
the learned readout weights and returns the stack (and readout) to
training mode while leaving every reservoir cell, the layer count and
the feature width unchanged, and preserving the readout's construction
parameters. -/
theorem C7_reset_frame (s : StackedESN) :
    (s.reset).esn_layers = s.esn_layers ∧
    (s.reset).n_layers = s.n_layers ∧
    (s.reset).n_features = s.n_features ∧
    (s.reset).output.w_out = none ∧
    (s.reset).training = true ∧
    (s.reset).output.training = true ∧
    (s.reset).output.input_dim = s.output.input_dim ∧
    (s.reset).output.output_dim = s.output.output_dim ∧
    (s.reset).output.ridge_param = s.output.ridge_param ∧
    (s.reset).output.with_bias = s.output.with_bias ∧
    (s.reset).output.learning_algo = s.output.learning_algo := by
  simp [StackedESN.reset, RRCell.reset]

/-- C8: reset() idempotence — calling reset twice leaves the stack in
exactly the same state as calling it once. -/
theorem C8_reset_idempotent (s : StackedESN) : s.reset.reset = s.reset := rfl

/-- C9: every property accessor and method that dereferences
`self.esn_cell` (hidden, w, w_in, set_w, reset_hidden,
get_spectral_radius) fails with AttributeError on every constructed
stack, because no code path assigns an `esn_cell` attribute. -/
theorem C9_esn_cell_accessors_attribute_error (a : StackedESNArgs)
    (s : StackedESN) (h : StackedESN.init a = .ok s) :
    s.hiddenProp = .error .attributeError ∧
    s.wProp = .error .attributeError ∧
    s.wInProp = .error .attributeError ∧
    (∀ w', s.set_w w' = .error .attributeError) ∧
    s.reset_hidden = .error .attributeError ∧
    s.get_spectral_radius = .error .attributeError := by
  obtain ⟨-, -, -, -, -, hc, -, -⟩ := init_ok_elim h
  refine ⟨?_, ?_, ?_, ?_, ?_, ?_⟩ <;>
    simp [StackedESN.hiddenProp, StackedESN.wProp, StackedESN.wInProp,
      StackedESN.set_w, StackedESN.reset_hidden, StackedESN.get_spectral_radius,
      getAttr, hc, Except.map]

/-- Witness for C9: the accessors fail on a concrete constructed stack. -/
theorem C9_esn_cell_accessors_attribute_error_witness :
    exampleStack.hiddenProp = .error .attributeError ∧
    exampleStack.wProp = .error .attributeError ∧
    exampleStack.wInProp = .error .attributeError ∧
    exampleStack.set_w (.t2 [[1]]) = .error .attributeError ∧
    exampleStack.reset_hidden = .error .attributeError ∧
    exampleStack.get_spectral_radius = .error .attributeError := by
  have h := C9_esn_cell_accessors_attribute_error exampleArgs exampleStack (by rfl)
  exact ⟨h.1, h.2.1, h.2.2.1, h.2.2.2.1 (.t2 [[1]]), h.2.2.2.2.1, h.2.2.2.2.2⟩

/-- C10: the w_fdb constructor argument has no effect — two constructor
calls differing only in w_fdb build identical stacks, and every
constructed cell has None in the feedback-weight position and feedback
width equal to output_dim. -/
theorem C10_wfdb_has_no_effect :
    (∀ (a : StackedESNArgs) (w1 w2 : Option PyTensor),
      StackedESN.init { a with w_fdb := w1 } =
        StackedESN.init { a with w_fdb := w2 }) ∧
    (∀ (a : StackedESNArgs) (s : StackedESN) (i : Nat) (c : ESNCell),
      StackedESN.init a = .ok s → s.esn_layers.get? i = some c →
      c.w_fdb = none ∧ c.feedback_dim = a.output_dim) := by
  constructor
  · intro a w1 w2
    have hb : ∀ n, buildLayer { a with w_fdb := w1 } n =
        buildLayer { a with w_fdb := w2 } n := fun _ => rfl
    unfold StackedESN.init
    rw [buildLayers_congr hb]
  · intro a s i c h hc
    obtain ⟨hb, -, -, -, -, -, -, -⟩ := init_ok_elim h
    have hlen : s.esn_layers.length = a.hidden_dim.length := by
      rw [buildLayers_length hb, List.length_range]
    have hki : i < a.hidden_dim.length := by
      rw [← hlen]
      exact (List.get?_eq_some.mp hc).1
    have hri : (List.range a.hidden_dim.length).get? i = some i :=
      List.get?_range hki
    have he := buildLayer_ok_elim (buildLayers_get hb hri hc)
    exact ⟨he.2.2.2.2.2.2.2.2.1, he.2.2.2.2.2.2.2.2.2⟩

/-- Witness for C10: two concrete constructions differing only in w_fdb
coincide, and a concrete constructed cell has no feedback weights and
feedback width output_dim. -/
theorem C10_wfdb_has_no_effect_witness :
    StackedESN.init { baseArgs with w_fdb := some (.t2 [[1]]) } =
      StackedESN.init { baseArgs with w_fdb := none } ∧
    (exampleCell0.w_fdb = none ∧ exampleCell0.feedback_dim = exampleArgs.output_dim) := by
  have h := C10_wfdb_has_no_effect
  exact ⟨h.1 baseArgs (some (.t2 [[1]])) none,
    h.2 exampleArgs exampleStack 0 exampleCell0 (by rfl) (by rfl)⟩

/-- C4 counterexample: the claim says a per-layer list whose length
differs from n_layers, or an empty hidden_dim, raises a
ConfigurationError at construction (never silently truncated).  On the
specification's own example — hidden_dim = [10, 20] with
spectral_radius = [0.9, 0.8, 0.7] — construction succeeds and the third
entry is silently ignored (the layers get 0.9 and 0.8); with an empty
hidden_dim, construction succeeds with zero layers. -/
theorem C4_no_configuration_error_counterexample :
    (StackedESN.init c4args).toOption.map
      (fun s => s.esn_layers.map ESNCell.spectral_radius) = some [9/10, 8/10] ∧
    (StackedESN.init c4emptyArgs).toOption.map
      (fun s => s.esn_layers.length) = some 0 := by
  constructor <;> rfl

/-- C4 as amended: construction never raises a ConfigurationError (no
such class exists in the code; the only construction-time error is
IndexError).  An empty hidden_dim constructs a zero-layer stack without
error.  A per-layer list longer than n_layers is silently truncated:
layer i receives entry i and surplus entries are ignored.  A per-layer
list shorter than n_layers raises IndexError at construction time. -/
theorem C4_validation_amended :
    (∀ (a : StackedESNArgs) (e : PyError),
      StackedESN.init a = .error e → e = .indexError) ∧
    (∀ a : StackedESNArgs, a.hidden_dim = [] →
      ∃ s, StackedESN.init a = .ok s ∧ s.esn_layers = []) ∧
    (∀ (a : StackedESNArgs) (vs : List ℚ) (i : Nat) (c : ESNCell) (s : StackedESN),
      a.spectral_radius = .list vs → StackedESN.init a = .ok s →
      s.esn_layers.get? i = some c → vs.get? i = some c.spectral_radius) ∧
    (∀ (a : StackedESNArgs) (vs : List ℚ),
      a.spectral_radius = .list vs → vs.length < a.hidden_dim.length →
      StackedESN.init a = .error .indexError) := by
  refine ⟨?_, ?_, ?_, ?_⟩
  · intro a e h
    exact init_error h
  · intro a ha
    have hr : List.range a.hidden_dim.length = [] := by rw [ha]; rfl
    unfold StackedESN.init
    rw [hr]
    exact ⟨_, rfl, rfl⟩
  · intro a vs i c s hsr hinit hc
    obtain ⟨hb, -, -, -, -, -, -, -⟩ := init_ok_elim hinit
    have hlen : s.esn_layers.length = a.hidden_dim.length := by
      rw [buildLayers_length hb, List.length_range]
    have hki : i < a.hidden_dim.length := by
      rw [← hlen]
      exact (List.get?_eq_some.mp hc).1
    have hri : (List.range a.hidden_dim.length).get? i = some i :=
      List.get?_range hki
    have hres := (buildLayer_ok_elim (buildLayers_get hb hri hc)).2.2.1
    rw [hsr] at hres
    simp only [resolve_scalar] at hres
    cases hg : vs.get? i <;> rw [hg] at hres
    · cases hres
    · exact congrArg some (Except.ok.inj hres)
  · intro a vs hsr hlen
    cases hinit : StackedESN.init a with
    | error e => rw [init_error hinit]
    | ok s =>
      exfalso
      obtain ⟨hb, -, -, -, -, -, -, -⟩ := init_ok_elim hinit
      have hmem : vs.length ∈ List.range a.hidden_dim.length :=
        List.mem_range.mpr hlen
      obtain ⟨c, hbl⟩ := buildLayers_mem hb hmem
      have hres := (buildLayer_ok_elim hbl).2.2.1
      rw [hsr] at hres
      simp only [resolve_scalar] at hres
      rw [List.get?_len_le (Nat.le_refl vs.length)] at hres
      cases hres

/-- Witness for the amended C4: an empty hidden_dim constructs a
zero-layer stack; a one-layer stack with a two-entry list takes the
first entry; a two-layer stack with a one-entry list raises IndexError. -/
theorem C4_validation_amended_witness :
    (∃ s, StackedESN.init c4emptyArgs = .ok s ∧ s.esn_layers = []) ∧
    [(3 : ℚ)/5, 7/10].get? 0 = some c4truncCell.spectral_radius ∧
    StackedESN.init c4shortArgs = .error .indexError := by
  have h := C4_validation_amended
  exact ⟨h.2.1 c4emptyArgs rfl,
    h.2.2.1 c4truncArgs [3/5, 7/10] 0 c4truncCell c4truncStack rfl (by rfl) (by rfl),
    h.2.2.2 c4shortArgs [1/2] rfl (by decide)⟩

end EchoTorch
